import Mathlib

/-!
Shallow embedding of the analytics core of the sales-forecast repository
(src/forecast.py and src/dashboard.py), with proofs and refutations of its
stated properties.

Modelling conventions:
* Monetary amounts, probabilities and derived ratios are rational numbers;
  Python float arithmetic is treated as exact arithmetic.
* The source observes a parsed date only through day differences
  (the `.days` of a `datetime` difference) and through its `%Y-%m`
  grouping key, so a date is modelled by exactly those two observations.
* A Python dictionary with a fixed key type is modelled as a function into
  `Option`, or as an association list when it is caller-supplied
  configuration; `dict.get(k, d)` becomes `getD`.
* A Python function that can raise an exception on some inputs is modelled
  with an `Option` result, `none` marking a raising run.
-/

/-- A calendar date as the analytics observe it: `ord` is the day number of
the date and `month` encodes the `%Y-%m` grouping key as `year * 12 + month`;
the lexicographic order of the key strings agrees with the numeric order of
this encoding. -/
structure Date where
  ord : Int
  month : Int
deriving DecidableEq

/-- One opportunity row as produced by the CSV loader `read_opportunities`.
`last_stage = none` models a row dictionary that has no such key at all,
while `some v` models a present key holding `v`; a blank CSV cell is read by
`csv.DictReader` as the empty string, that is `some ""`. -/
structure Opportunity where
  opportunity_id : String
  opportunity_name : String
  amount : ℚ
  stage : String
  status : String
  owner : String
  created_date : Date
  close_date : Date
  last_stage : Option String
deriving DecidableEq

/-- Convenience constructor for concrete rows. -/
def mkOpp (id name : String) (amount : ℚ) (stage status owner : String)
    (created closed : Date) (lastStage : Option String) : Opportunity :=
  ⟨id, name, amount, stage, status, owner, created, closed, lastStage⟩

/-- Python `statistics.mean`; every call site but one guards against the
empty sample (the unguarded one is modelled in `calculate_trend_analysis`). -/
def mean (l : List ℚ) : ℚ := l.sum / l.length

/-- Insert into a sorted list, used by `sortLe`. -/
def insertLe (le : α → α → Bool) (a : α) : List α → List α
  | [] => [a]
  | b :: bs => if le a b then a :: b :: bs else b :: insertLe le a bs

/-- Insertion sort, modelling Python `sorted` and `list.sort`. -/
def sortLe (le : α → α → Bool) : List α → List α
  | [] => []
  | a :: as => insertLe le a (sortLe le as)

/-- Effective stage of a record: `opp.get('last_stage', opp['stage'])`.
The dictionary lookup falls back to `stage` only when the key is absent;
a present-but-blank value `some ""` is returned as it stands. -/
def eff_stage (o : Opportunity) : String := o.last_stage.getD o.stage

/-- Cycle lengths in days of the Won deals, in input order
(`calculate_sales_cycle_analysis`, forecast.py lines 29-58). -/
def won_cycles (opps : List Opportunity) : List Int :=
  (opps.filter (fun o => decide (o.status = "Won"))).map
    (fun o => o.close_date.ord - o.created_date.ord)

/-- Python `statistics.median`; call sites guard the empty sample. -/
def pyMedian (l : List ℚ) : ℚ :=
  let s := sortLe (fun a b => decide (a ≤ b)) l
  let n := l.length
  if n % 2 = 1 then s.getD (n / 2) 0
  else (s.getD (n / 2 - 1) 0 + s.getD (n / 2) 0) / 2

/-- Overall average Won cycle: `statistics.mean(won_cycles) if won_cycles
else 0`. -/
def avg_cycle (opps : List Opportunity) : ℚ :=
  if won_cycles opps = [] then 0
  else mean ((won_cycles opps).map (fun d => (d : ℚ)))

/-- Overall median Won cycle. -/
def median_cycle (opps : List Opportunity) : ℚ :=
  if won_cycles opps = [] then 0
  else pyMedian ((won_cycles opps).map (fun d => (d : ℚ)))

/-- Won cycle lengths grouped by effective stage (`stage_cycles`). -/
def stage_cycles (opps : List Opportunity) (s : String) : List Int :=
  (opps.filter (fun o => decide (o.status = "Won" ∧ eff_stage o = s))).map
    (fun o => o.close_date.ord - o.created_date.ord)

/-- One row of the at-risk report of `identify_at_risk_opportunities`. -/
structure AtRiskEntry where
  id : String
  name : String
  amount : ℚ
  stage : String
  days_in_pipeline : Int
  days_over : ℚ
  owner : String
deriving DecidableEq

/-- forecast.py `identify_at_risk_opportunities` (lines 60-84). The source
reads `today = datetime.now()` inside the function body; the `today`
argument below models the value of that internal clock read, it is not an
argument of the Python function. -/
def identify_at_risk_opportunities (opps : List Opportunity) (avgCycle : ℚ)
    (today : Date) : List AtRiskEntry :=
  let at_risk := opps.filterMap (fun o =>
    if o.status = "Open" then
      let d : Int := today.ord - o.created_date.ord
      if avgCycle < (d : ℚ) then
        some { id := o.opportunity_id, name := o.opportunity_name,
               amount := o.amount, stage := o.stage, days_in_pipeline := d,
               days_over := (d : ℚ) - avgCycle, owner := o.owner }
      else none
    else none)
  sortLe (fun a b => decide (b.days_over ≤ a.days_over)) at_risk

/-- Result record of `calculate_sales_velocity`. -/
structure VelocityMetrics where
  num_open : ℕ
  overall_win_rate : ℚ
  avg_deal_size : ℚ
  avg_cycle : ℚ
  sales_velocity : ℚ
  proj30 : ℚ
  proj60 : ℚ
  proj90 : ℚ
deriving DecidableEq

/-- forecast.py `calculate_sales_velocity` (lines 86-122). -/
def calculate_sales_velocity (opps : List Opportunity) (avgCycle : ℚ) :
    VelocityMetrics :=
  let open_opps := opps.filter (fun o => decide (o.status = "Open"))
  let closed := opps.filter (fun o => decide (o.status = "Won" ∨ o.status = "Lost"))
  let won_opps := opps.filter (fun o => decide (o.status = "Won"))
  let overall_win_rate : ℚ :=
    if closed = [] then 0 else (won_opps.length : ℚ) / (closed.length : ℚ)
  let won_amounts := won_opps.map (fun o => o.amount)
  let avg_deal_size := if won_amounts = [] then 0 else mean won_amounts
  let sales_velocity :=
    if 0 < avgCycle then
      (open_opps.length : ℚ) * overall_win_rate * avg_deal_size / avgCycle
    else 0
  { num_open := open_opps.length, overall_win_rate := overall_win_rate,
    avg_deal_size := avg_deal_size, avg_cycle := avgCycle,
    sales_velocity := sales_velocity, proj30 := sales_velocity * 30,
    proj60 := sales_velocity * 60, proj90 := sales_velocity * 90 }

/-- Python `statistics.quantiles(data, n=4)` with the default `exclusive`
method: `none` models the `StatisticsError` raised on fewer than two data
points, otherwise the three quartile boundaries obtained by linear
interpolation with indices clamped to the sample. -/
def pyQuantiles4 (l : List ℚ) : Option (List ℚ) :=
  if l.length < 2 then none
  else
    let s := sortLe (fun a b => decide (a ≤ b)) l
    let m : Int := (l.length : Int) + 1
    some ((List.range 3).map (fun i0 =>
      let i : Int := (i0 : Int) + 1
      let j0 : Int := i * m / 4
      let j : Int :=
        if j0 < 1 then 1
        else if (l.length : Int) - 1 < j0 then (l.length : Int) - 1
        else j0
      let delta : Int := i * m - j * 4
      (s.getD (j - 1).toNat 0 * ((4 : ℚ) - (delta : ℚ)) +
        s.getD j.toNat 0 * (delta : ℚ)) / 4))

/-- Cycle-time block of `calculate_scenario_analysis` (forecast.py lines
153-159): 25th percentile, median and 75th percentile of the Won cycle
sample, or 100 days each for an empty sample; `none` when the quantile
computation raises. -/
def scenario_cycles (wc : List ℚ) : Option (ℚ × ℚ × ℚ) :=
  if wc = [] then some (100, 100, 100)
  else
    match pyQuantiles4 wc with
    | none => none
    | some q => some (q.getD 0 0, pyMedian wc, q.getD 2 0)

/-- The closed (Won or Lost) records of a snapshot. -/
def closed_opps (opps : List Opportunity) : List Opportunity :=
  opps.filter (fun o => decide (o.status = "Won" ∨ o.status = "Lost"))

/-- The closed deals attributed to effective stage `s`. -/
def stage_bucket (opps : List Opportunity) (s : String) : List Opportunity :=
  (closed_opps opps).filter (fun o => decide (eff_stage o = s))

/-- Per-stage closed-deal counters of `calculate_historical_win_rates`. -/
structure StageStat where
  won : ℕ
  lost : ℕ
  total : ℕ
deriving DecidableEq

/-- The `stage_stats` dictionary of `calculate_historical_win_rates`
(forecast.py lines 580-604), defined exactly on the effective stages that
occur among the closed deals. -/
def stage_stats_map (opps : List Opportunity) (s : String) : Option StageStat :=
  if stage_bucket opps s = [] then none
  else some
    { won := ((stage_bucket opps s).filter (fun o => decide (o.status = "Won"))).length,
      lost := ((stage_bucket opps s).filter (fun o => decide (o.status = "Lost"))).length,
      total := (stage_bucket opps s).length }

/-- The `historical_rates` dictionary of `calculate_historical_win_rates`. -/
def historical_rates (opps : List Opportunity) (s : String) : Option ℚ :=
  (stage_stats_map opps s).map (fun st =>
    if 0 < st.total then (st.won : ℚ) / (st.total : ℚ) else 0)

/-- The fixed stage order of the pipeline. -/
def stage_order : List String := ["Discovery", "Demo", "Proposal", "Negotiation"]

/-- The fallback probability table used by `calculate_scenario_analysis`
for a stage without closed-deal history. -/
def default_rates (s : String) : ℚ :=
  if s = "Discovery" then 1/10
  else if s = "Demo" then 3/10
  else if s = "Proposal" then 1/2
  else if s = "Negotiation" then 7/10
  else 0

/-- Best, expected and worst win rates of one stage. -/
structure RateTriple where
  best : ℚ
  expected : ℚ
  worst : ℚ
deriving DecidableEq

/-- Rate block of `calculate_scenario_analysis` (forecast.py lines
136-151): the historical rate adjusted by plus or minus thirty percent when
the stage has closed-deal history, otherwise the default table adjusted the
same way. -/
def stage_rate_triple (hr : String → Option ℚ) (hs : String → Option StageStat)
    (s : String) : RateTriple :=
  match hs s with
  | some st =>
    if 0 < st.total then
      let r := (hr s).getD 0
      { best := min 1 (r * (13/10)), expected := r, worst := r * (7/10) }
    else
      let d := default_rates s
      { best := min 1 (d * (13/10)), expected := d, worst := d * (7/10) }
  | none =>
    let d := default_rates s
    { best := min 1 (d * (13/10)), expected := d, worst := d * (7/10) }

/-- The `best` rate dictionary, read back through `rates.get(stage, 0)`. -/
def best_rate (hr : String → Option ℚ) (hs : String → Option StageStat)
    (s : String) : ℚ :=
  if s ∈ stage_order then (stage_rate_triple hr hs s).best else 0

/-- The `expected` rate dictionary, read back through `rates.get(stage, 0)`. -/
def expected_rate (hr : String → Option ℚ) (hs : String → Option StageStat)
    (s : String) : ℚ :=
  if s ∈ stage_order then (stage_rate_triple hr hs s).expected else 0

/-- The `worst` rate dictionary, read back through `rates.get(stage, 0)`. -/
def worst_rate (hr : String → Option ℚ) (hs : String → Option StageStat)
    (s : String) : ℚ :=
  if s ∈ stage_order then (stage_rate_triple hr hs s).worst else 0

/-- Weighted forecast of the open pipeline under a per-stage rate table
(the inner loop of `calculate_scenario_analysis`, lines 172-178). -/
def scenario_forecast (opps : List Opportunity) (rate : String → ℚ) : ℚ :=
  ((opps.filter (fun o => decide (o.status = "Open"))).map
    (fun o => o.amount * rate o.stage)).sum

/-- One scenario of the report of `calculate_scenario_analysis`. -/
structure Scenario where
  forecast : ℚ
  cycle : ℚ
  rates : List (String × ℚ)
deriving DecidableEq

/-- forecast.py `calculate_scenario_analysis` (lines 124-186), producing
the best, expected and worst scenarios in that order; `none` models the
`StatisticsError` raised by the quantile computation on a single Won
cycle. -/
def calculate_scenario_analysis (opps : List Opportunity)
    (hr : String → Option ℚ) (hs : String → Option StageStat)
    (wc : List ℚ) : Option (Scenario × Scenario × Scenario) :=
  match scenario_cycles wc with
  | none => none
  | some (bc, ec, worc) => some
    ({ forecast := scenario_forecast opps (best_rate hr hs), cycle := bc,
       rates := stage_order.map (fun s => (s, best_rate hr hs s)) },
     { forecast := scenario_forecast opps (expected_rate hr hs), cycle := ec,
       rates := stage_order.map (fun s => (s, expected_rate hr hs s)) },
     { forecast := scenario_forecast opps (worst_rate hr hs), cycle := worc,
       rates := stage_order.map (fun s => (s, worst_rate hr hs s)) })

/-- The scenario engine as wired in `main` (forecast.py lines 1061-1073):
historical rates, stage stats and the cycle sample all come from the same
snapshot. -/
def scenario_analysis_of (opps : List Opportunity) :
    Option (Scenario × Scenario × Scenario) :=
  calculate_scenario_analysis opps (historical_rates opps) (stage_stats_map opps)
    ((won_cycles opps).map (fun d => (d : ℚ)))

/-- Per-owner aggregate record of `calculate_rep_performance`. -/
structure RepStats where
  open_count : ℕ
  open_pipeline : ℚ
  weighted_forecast : ℚ
  won_count : ℕ
  lost_count : ℕ
  closed_count : ℕ
  win_rate : ℚ
  won_amount : ℚ
  avg_deal_size : ℚ
deriving DecidableEq

/-- forecast.py `calculate_rep_performance` (lines 188-234). The loop
accumulates per owner, so each field of the final dictionary entry equals
the corresponding aggregate over that owner's records. -/
def calculate_rep_performance (opps : List Opportunity) (p : List (String × ℚ))
    (owner : String) : RepStats :=
  let mine := opps.filter (fun o => decide (o.owner = owner))
  let open_opps := mine.filter (fun o => decide (o.status = "Open"))
  let won_opps := mine.filter (fun o => decide (o.status = "Won"))
  let lost_opps := mine.filter (fun o => decide (o.status = "Lost"))
  let closedCount := won_opps.length + lost_opps.length
  let wonAmount := (won_opps.map (fun o => o.amount)).sum
  { open_count := open_opps.length,
    open_pipeline := (open_opps.map (fun o => o.amount)).sum,
    weighted_forecast :=
      (open_opps.map (fun o => o.amount * (p.lookup o.stage).getD 0)).sum,
    won_count := won_opps.length, lost_count := lost_opps.length,
    closed_count := closedCount,
    win_rate :=
      if 0 < closedCount then (won_opps.length : ℚ) / (closedCount : ℚ) else 0,
    won_amount := wonAmount,
    avg_deal_size :=
      if 0 < won_opps.length then wonAmount / (won_opps.length : ℚ) else 0 }

/-- The owners appearing in the snapshot. The key set of the `rep_stats`
dictionary is the set of owners of Open, Won or Lost records; owners of
records with other statuses never obtain an entry, and correspondingly own
zero open pipeline, so summing over all owners is equivalent. -/
def rep_owners (opps : List Opportunity) : List String :=
  (opps.map (fun o => o.owner)).dedup

/-- Index of a stage in the fixed order (`stage_to_index`). -/
def stage_index (s : String) : Option ℕ :=
  if s = "Discovery" then some 0
  else if s = "Demo" then some 1
  else if s = "Proposal" then some 2
  else if s = "Negotiation" then some 3
  else none

/-- The highest stage index a record reached, following the attribution
rules of `calculate_stage_progression_analysis` (forecast.py lines
263-325): closed deals use the effective stage, open deals the current
stage, and records with an unrecognized stage or status are skipped. -/
def reached_index (o : Opportunity) : Option ℕ :=
  if o.status = "Won" ∨ o.status = "Lost" then stage_index (eff_stage o)
  else if o.status = "Open" then stage_index o.stage
  else none

/-- Number of records counted as having entered stage index `i` or beyond. -/
def entered_at_least (opps : List Opportunity) (i : ℕ) : ℕ :=
  (opps.filter (fun o =>
    match reached_index o with
    | some k => decide (i ≤ k)
    | none => false)).length

/-- The `total_entered` counter of the stage-progression report. -/
def total_entered (opps : List Opportunity) (s : String) : ℕ :=
  match stage_index s with
  | some i => entered_at_least opps i
  | none => 0

/-- The `currently_in_stage` counter of the stage-progression report. -/
def currently_in_stage (opps : List Opportunity) (s : String) : ℕ :=
  (opps.filter (fun o =>
    decide (o.status = "Open" ∧ o.stage = s ∧ (stage_index o.stage).isSome))).length

/-- The `won_from_here` counter: outcomes attach to the final stage only. -/
def won_from_here (opps : List Opportunity) (s : String) : ℕ :=
  (opps.filter (fun o =>
    decide (o.status = "Won" ∧ eff_stage o = s ∧
      (stage_index (eff_stage o)).isSome))).length

/-- The `lost_from_here` counter. -/
def lost_from_here (opps : List Opportunity) (s : String) : ℕ :=
  (opps.filter (fun o =>
    decide (o.status = "Lost" ∧ eff_stage o = s ∧
      (stage_index (eff_stage o)).isSome))).length

/-- Equal-share time estimate of one record: the elapsed days divided by
the number of stages it reached. The elapsed time of an open deal is
measured from the `datetime.now()` read inside
`calculate_stage_progression_analysis`, passed here as `today`. -/
def days_contrib (today : Date) (o : Opportunity) : Option ℚ :=
  match reached_index o with
  | some k =>
    let elapsed : Int :=
      if o.status = "Open" then today.ord - o.created_date.ord
      else o.close_date.ord - o.created_date.ord
    some ((elapsed : ℚ) / ((k : ℚ) + 1))
  | none => none

/-- The `days_in_stage` sample of one stage. -/
def days_in_stage (opps : List Opportunity) (s : String) (today : Date) :
    List ℚ :=
  opps.filterMap (fun o =>
    match stage_index s, reached_index o with
    | some i, some k => if i ≤ k then days_contrib today o else none
    | _, _ => none)

/-- The `avg_days_in_stage` statistic. -/
def avg_days_in_stage (opps : List Opportunity) (s : String) (today : Date) : ℚ :=
  if days_in_stage opps s today = [] then 0
  else mean (days_in_stage opps s today)

/-- The `stuck_count` statistic: contributions above one and a half times
the stage mean. -/
def stuck_count (opps : List Opportunity) (s : String) (today : Date) : ℕ :=
  ((days_in_stage opps s today).filter
    (fun d => decide (avg_days_in_stage opps s today * (3/2) < d))).length

/-- One cohort row of `calculate_cohort_analysis` (forecast.py lines
405-474). -/
structure Cohort where
  total : ℕ
  won : ℕ
  lost : ℕ
  open_count : ℕ
  conversion_rate : ℚ
  win_rate : ℚ
  avg_days_to_close : ℚ
  closed_days : List Int
deriving DecidableEq

/-- The cohort of one creation month. Statuses other than Won and Lost fall
into the `else` branch of the source loop and are counted as open. -/
def cohort_of (opps : List Opportunity) (k : Int) : Cohort :=
  let mine := opps.filter (fun o => decide (o.created_date.month = k))
  let wonN := (mine.filter (fun o => decide (o.status = "Won"))).length
  let lostN := (mine.filter (fun o => decide (o.status = "Lost"))).length
  let openN :=
    (mine.filter (fun o => decide (¬o.status = "Won" ∧ ¬o.status = "Lost"))).length
  let closedDays := (mine.filter (fun o =>
    decide (o.status = "Won" ∨ o.status = "Lost"))).map
      (fun o => o.close_date.ord - o.created_date.ord)
  let closedN := wonN + lostN
  { total := mine.length, won := wonN, lost := lostN, open_count := openN,
    conversion_rate :=
      if 0 < mine.length then (closedN : ℚ) / (mine.length : ℚ) else 0,
    win_rate := if 0 < closedN then (wonN : ℚ) / (closedN : ℚ) else 0,
    avg_days_to_close :=
      if closedDays = [] then 0 else mean (closedDays.map (fun d => (d : ℚ))),
    closed_days := closedDays }

/-- The chronologically sorted cohort keys (`sorted(cohorts.keys())`). -/
def sorted_cohorts (opps : List Opportunity) : List Int :=
  sortLe (fun a b => decide (a ≤ b))
    ((opps.map (fun o => o.created_date.month)).dedup)

/-- The three most recent cohorts, Python `sorted_cohorts[-3:]`. -/
def recent_cohorts (opps : List Opportunity) : List Int :=
  (sorted_cohorts opps).drop ((sorted_cohorts opps).length - 3)

/-- The `cohort_trend` classification (forecast.py lines 457-468): among
the three most recent cohorts only the strictly positive win rates are
kept, and the first of those is compared against the last. -/
def cohort_trend (opps : List Opportunity) : String :=
  if 3 ≤ (sorted_cohorts opps).length then
    let win_rates := ((recent_cohorts opps).map
      (fun k => (cohort_of opps k).win_rate)).filter (fun r => decide (0 < r))
    if 2 ≤ win_rates.length then
      let change := win_rates.getLast?.getD 0 - win_rates.head?.getD 0
      if 1/10 < change then "improving"
      else if change < -(1/10) then "declining"
      else "stable"
    else "stable"
  else "stable"

/-- The trend rule in the words of the specification, for comparison with
`cohort_trend`: compare the win rates of the first and the last of the
three most recent cohorts directly. -/
def spec_cohort_trend (opps : List Opportunity) : String :=
  if 3 ≤ (sorted_cohorts opps).length then
    let firstR := (cohort_of opps ((recent_cohorts opps).head?.getD 0)).win_rate
    let lastR := (cohort_of opps ((recent_cohorts opps).getLast?.getD 0)).win_rate
    let change := lastR - firstR
    if 1/10 < change then "improving"
    else if change < -(1/10) then "declining"
    else "stable"
  else "stable"

/-- One month row of `calculate_trend_analysis` (forecast.py lines
476-578), keyed by close month. -/
structure MonthData where
  revenue : ℚ
  won_count : ℕ
  lost_count : ℕ
  closed_count : ℕ
  win_rate : ℚ
deriving DecidableEq

/-- The closed-deal aggregates of one close month. -/
def month_data (opps : List Opportunity) (k : Int) : MonthData :=
  let closed := opps.filter (fun o =>
    decide ((o.status = "Won" ∨ o.status = "Lost") ∧ o.close_date.month = k))
  let wonIn := closed.filter (fun o => decide (o.status = "Won"))
  { revenue := (wonIn.map (fun o => o.amount)).sum,
    won_count := wonIn.length,
    lost_count := (closed.filter (fun o => decide (o.status = "Lost"))).length,
    closed_count := closed.length,
    win_rate :=
      if 0 < closed.length then (wonIn.length : ℚ) / (closed.length : ℚ) else 0 }

/-- The chronologically sorted close-month keys. -/
def sorted_months (opps : List Opportunity) : List Int :=
  sortLe (fun a b => decide (a ≤ b))
    (((opps.filter (fun o => decide (o.status = "Won" ∨ o.status = "Lost"))).map
      (fun o => o.close_date.month)).dedup)

/-- Report of `calculate_trend_analysis`. The local `monthly_pipeline`
accumulator of the source is never returned and is omitted. -/
structure TrendReport where
  monthly_data : List (Int × MonthData)
  sorted_months : List Int
  revenue_trend : String
  win_rate_trend : String
  avg_monthly_revenue : ℚ
  avg_win_rate : ℚ
  next_quarter_projection : ℚ
  current_pipeline : ℚ
  pipeline_coverage : ℚ
  monthly_quota : ℚ
  quarterly_quota : ℚ
deriving DecidableEq

/-- forecast.py `calculate_trend_analysis` (lines 476-578). The result is
`none` exactly when the function raises: with at least three closed months
on record and no positive win rate among the most recent three,
`avg_win_rate = statistics.mean([])` raises a `StatisticsError`. -/
def calculate_trend_analysis (opps : List Opportunity) : Option TrendReport :=
  let months := sorted_months opps
  let recent := if 3 ≤ months.length then months.drop (months.length - 3) else months
  let revenueTrend :=
    if 2 ≤ recent.length then
      let revenues := recent.map (fun m => (month_data opps m).revenue)
      let firstR := revenues.head?.getD 0
      let lastR := revenues.getLast?.getD 0
      let change := if 0 < firstR then (lastR - firstR) / firstR else 0
      if 1/10 < change then "improving"
      else if change < -(1/10) then "declining"
      else "stable"
    else "stable"
  let winRateTrend :=
    if 2 ≤ recent.length then
      let wrs := (recent.map (fun m => (month_data opps m).win_rate)).filter
        (fun r => decide (0 < r))
      if 2 ≤ wrs.length then
        let change := wrs.getLast?.getD 0 - wrs.head?.getD 0
        if 1/20 < change then "improving"
        else if change < -(1/20) then "declining"
        else "stable"
      else "stable"
    else "stable"
  let currentPipeline := ((opps.filter (fun o => decide (o.status = "Open"))).map
    (fun o => o.amount)).sum
  let monthlyQuota : ℚ := 2000000
  let quarterlyQuota := monthlyQuota * 3
  let coverage := if 0 < quarterlyQuota then currentPipeline / quarterlyQuota else 0
  if 3 ≤ recent.length then
    let avgMonthlyRevenue := mean (recent.map (fun m => (month_data opps m).revenue))
    let wrs := (recent.map (fun m => (month_data opps m).win_rate)).filter
      (fun r => decide (0 < r))
    if wrs = [] then none
    else some
      { monthly_data := months.map (fun k => (k, month_data opps k)),
        sorted_months := months, revenue_trend := revenueTrend,
        win_rate_trend := winRateTrend, avg_monthly_revenue := avgMonthlyRevenue,
        avg_win_rate := mean wrs,
        next_quarter_projection := avgMonthlyRevenue * 3,
        current_pipeline := currentPipeline, pipeline_coverage := coverage,
        monthly_quota := monthlyQuota, quarterly_quota := quarterlyQuota }
  else some
    { monthly_data := months.map (fun k => (k, month_data opps k)),
      sorted_months := months, revenue_trend := revenueTrend,
      win_rate_trend := winRateTrend, avg_monthly_revenue := 0,
      avg_win_rate := 0, next_quarter_projection := 0,
      current_pipeline := currentPipeline, pipeline_coverage := coverage,
      monthly_quota := monthlyQuota, quarterly_quota := quarterlyQuota }

/-- Total of `calculate_forecast` (forecast.py lines 606-627). -/
def calculate_forecast_total (opps : List Opportunity)
    (p : List (String × ℚ)) : ℚ :=
  ((opps.filter (fun o => decide (o.status = "Open"))).map
    (fun o => o.amount * (p.lookup o.stage).getD 0)).sum

/-- Per-stage breakdown row of `calculate_forecast`. -/
structure StageBreakdownRow where
  count : ℕ
  total_amount : ℚ
  weighted_amount : ℚ
deriving DecidableEq

/-- The `stage_breakdown` entry of one stage in `calculate_forecast`. -/
def calculate_forecast_breakdown (opps : List Opportunity)
    (p : List (String × ℚ)) (s : String) : StageBreakdownRow :=
  let mine := opps.filter (fun o => decide (o.status = "Open" ∧ o.stage = s))
  { count := mine.length,
    total_amount := (mine.map (fun o => o.amount)).sum,
    weighted_amount := (mine.map (fun o => o.amount * (p.lookup o.stage).getD 0)).sum }

/-- dashboard.py `calculate_metrics` line 57: total open pipeline. -/
def total_pipeline (opps : List Opportunity) : ℚ :=
  ((opps.filter (fun o => decide (o.status = "Open"))).map (fun o => o.amount)).sum

/-- dashboard.py `calculate_metrics` lines 60-63: probability-weighted
forecast over the open deals. -/
def weighted_forecast (opps : List Opportunity) (p : List (String × ℚ)) : ℚ :=
  ((opps.filter (fun o => decide (o.status = "Open"))).map
    (fun o => o.amount * (p.lookup o.stage).getD 0)).sum

/-- dashboard.py `calculate_metrics` line 66: Won over closed, 0 with no
closed deals. -/
def win_rate (opps : List Opportunity) : ℚ :=
  let closed := opps.filter (fun o => decide (o.status = "Won" ∨ o.status = "Lost"))
  let wonOpps := opps.filter (fun o => decide (o.status = "Won"))
  if closed = [] then 0 else (wonOpps.length : ℚ) / (closed.length : ℚ)

/-- dashboard.py `calculate_metrics` line 69. -/
def avg_deal_size (opps : List Opportunity) : ℚ :=
  let wonOpps := opps.filter (fun o => decide (o.status = "Won"))
  if wonOpps = [] then 0 else mean (wonOpps.map (fun o => o.amount))

/-- dashboard.py `calculate_metrics` lines 72-80: mean Won cycle, 0 with no
Won deals. -/
def metrics_avg_cycle (opps : List Opportunity) : ℚ :=
  let wonOpps := opps.filter (fun o => decide (o.status = "Won"))
  if wonOpps = [] then 0
  else mean (wonOpps.map (fun o => ((o.close_date.ord - o.created_date.ord : Int) : ℚ)))

/-- dashboard.py `calculate_metrics` lines 72-80: sales velocity. -/
def metrics_sales_velocity (opps : List Opportunity) : ℚ :=
  if opps.filter (fun o => decide (o.status = "Won")) = [] then 0
  else if 0 < metrics_avg_cycle opps then
    ((opps.filter (fun o => decide (o.status = "Open"))).length : ℚ) *
      win_rate opps * avg_deal_size opps / metrics_avg_cycle opps
  else 0

/-- Result record of dashboard.py `calculate_metrics`. -/
structure Metrics where
  total_pipeline : ℚ
  weighted_forecast : ℚ
  win_rate : ℚ
  avg_deal_size : ℚ
  num_open : ℕ
  num_won : ℕ
  num_lost : ℕ
  avg_cycle : ℚ
  sales_velocity : ℚ
deriving DecidableEq

/-- dashboard.py `calculate_metrics` (lines 50-92). -/
def calculate_metrics (opps : List Opportunity) (p : List (String × ℚ)) : Metrics :=
  { total_pipeline := total_pipeline opps,
    weighted_forecast := weighted_forecast opps p,
    win_rate := win_rate opps,
    avg_deal_size := avg_deal_size opps,
    num_open := (opps.filter (fun o => decide (o.status = "Open"))).length,
    num_won := (opps.filter (fun o => decide (o.status = "Won"))).length,
    num_lost := (opps.filter (fun o => decide (o.status = "Lost"))).length,
    avg_cycle := metrics_avg_cycle opps,
    sales_velocity := metrics_sales_velocity opps }

/-- Shift both dates of a record by `d` days, keeping the month keys; used
to state clock-translation invariance of the cycle-age computations. -/
def shift_dates (d : Int) (o : Opportunity) : Opportunity :=
  { o with created_date := ⟨o.created_date.ord + d, o.created_date.month⟩,
           close_date := ⟨o.close_date.ord + d, o.close_date.month⟩ }

/-! Concrete snapshots used to witness or refute individual properties. -/

/-- The specification's worked forecast example: two open deals. -/
def w1opps : List Opportunity :=
  [mkOpp "P1" "alpha" 100000 "Discovery" "Open" "Ann" ⟨738900, 24288⟩ ⟨0, 0⟩ none,
   mkOpp "P2" "beta" 50000 "Demo" "Open" "Bob" ⟨738914, 24288⟩ ⟨0, 0⟩ none]

/-- Probability map of the worked example. -/
def w1probs : List (String × ℚ) := [("Discovery", 1/10), ("Demo", 3/10)]

/-- A snapshot with no Won deal and one aged open deal. -/
def c2opps : List Opportunity :=
  [mkOpp "O1" "aged open deal" 50 "Demo" "Open" "Ann" ⟨100, 24288⟩ ⟨0, 0⟩ none]

/-- A clock reading ten days after the creation of the deal in `c2opps`. -/
def c2now : Date := ⟨110, 24288⟩

/-- A snapshot with no Won deal whose only open deal was created on the
reference day itself. -/
def w2opps : List Opportunity :=
  [mkOpp "O2" "fresh open deal" 50 "Demo" "Open" "Bob" ⟨110, 24288⟩ ⟨0, 0⟩ none,
   mkOpp "O3" "lost deal" 70 "Demo" "Lost" "Bob" ⟨90, 24287⟩ ⟨105, 24288⟩ (some "Demo")]

/-- The clock reading used with `w2opps`. -/
def w2now : Date := ⟨110, 24288⟩

/-- A snapshot with exactly one Won deal, hence a Won-cycle sample of size
one. -/
def c3opps : List Opportunity :=
  [mkOpp "W1" "single won deal" 100 "Demo" "Won" "Ann" ⟨0, 24280⟩ ⟨30, 24281⟩
    (some "Demo")]

/-- Three Lost deals closing in three consecutive months: every recent
month has win rate zero. -/
def c4opps : List Opportunity :=
  [mkOpp "L1" "lost one" 10 "Proposal" "Lost" "Ann" ⟨0, 24280⟩ ⟨30, 24281⟩
    (some "Proposal"),
   mkOpp "L2" "lost two" 20 "Demo" "Lost" "Bob" ⟨5, 24280⟩ ⟨40, 24282⟩ (some "Demo"),
   mkOpp "L3" "lost three" 30 "Demo" "Lost" "Ann" ⟨9, 24281⟩ ⟨70, 24283⟩ none]

/-- Three creation-month cohorts: the oldest has win rate zero, the two
recent ones each have win rate one half. -/
def c5opps : List Opportunity :=
  [mkOpp "A1" "a" 10 "Demo" "Lost" "Ann" ⟨0, 24280⟩ ⟨10, 24280⟩ (some "Demo"),
   mkOpp "B1" "b" 10 "Demo" "Won" "Ann" ⟨31, 24281⟩ ⟨45, 24281⟩ (some "Demo"),
   mkOpp "B2" "c" 10 "Demo" "Lost" "Ann" ⟨32, 24281⟩ ⟨46, 24281⟩ (some "Demo"),
   mkOpp "C1" "d" 10 "Demo" "Won" "Bob" ⟨60, 24282⟩ ⟨80, 24282⟩ (some "Demo"),
   mkOpp "C2" "e" 10 "Demo" "Lost" "Bob" ⟨61, 24282⟩ ⟨81, 24282⟩ (some "Demo")]

/-- Three cohorts whose win rates are all positive. -/
def w5opps : List Opportunity :=
  [mkOpp "D1" "f" 10 "Demo" "Won" "Ann" ⟨0, 24290⟩ ⟨10, 24290⟩ (some "Demo"),
   mkOpp "D2" "g" 10 "Demo" "Lost" "Ann" ⟨1, 24290⟩ ⟨11, 24290⟩ (some "Demo"),
   mkOpp "E1" "h" 10 "Demo" "Won" "Ann" ⟨31, 24291⟩ ⟨45, 24291⟩ (some "Demo"),
   mkOpp "E2" "i" 10 "Demo" "Lost" "Ann" ⟨32, 24291⟩ ⟨46, 24291⟩ (some "Demo"),
   mkOpp "F1" "j" 10 "Demo" "Won" "Bob" ⟨60, 24292⟩ ⟨80, 24292⟩ (some "Demo"),
   mkOpp "F2" "k" 10 "Demo" "Lost" "Bob" ⟨61, 24292⟩ ⟨81, 24292⟩ (some "Demo")]

/-- A Won deal whose CSV row has a blank `last_stage` cell: the loaded
dictionary holds the empty string, not a missing key. -/
def c7opp : Opportunity :=
  mkOpp "W2" "blank last stage" 10 "Proposal" "Won" "Ann" ⟨100, 24285⟩
    ⟨130, 24286⟩ (some "")

/-- One open deal, used to exhibit the clock dependence of the at-risk
report. -/
def c9opps : List Opportunity :=
  [mkOpp "O4" "clocked open deal" 5 "Discovery" "Open" "Cal" ⟨100, 24288⟩ ⟨0, 0⟩ none]

/-- A snapshot with an open deal, two Won deals and a Lost deal, giving a
two-element Won-cycle sample and per-stage history. -/
def w10opps : List Opportunity :=
  [mkOpp "O5" "open deal" 100 "Demo" "Open" "Ann" ⟨200, 24292⟩ ⟨0, 0⟩ none,
   mkOpp "W3" "won fast" 50 "Demo" "Won" "Ann" ⟨0, 24280⟩ ⟨20, 24280⟩ (some "Demo"),
   mkOpp "W4" "won slow" 60 "Demo" "Won" "Bob" ⟨0, 24280⟩ ⟨40, 24281⟩ (some "Demo"),
   mkOpp "L4" "lost deal" 70 "Proposal" "Lost" "Ann" ⟨0, 24280⟩ ⟨10, 24280⟩
    (some "Proposal")]

/-! General helper lemmas about the embedding's building blocks. -/

theorem insertLe_ne_nil (le : α → α → Bool) (a : α) (l : List α) :
    insertLe le a l ≠ [] := by
  cases l with
  | nil => simp [insertLe]
  | cons b bs => by_cases h : le a b <;> simp [insertLe, h]

theorem sortLe_eq_nil_iff (le : α → α → Bool) (l : List α) :
    sortLe le l = [] ↔ l = [] := by
  cases l with
  | nil => simp [sortLe]
  | cons a as =>
    constructor
    · intro h
      exact absurd h (insertLe_ne_nil le a (sortLe le as))
    · intro h
      exact absurd h (List.cons_ne_nil a as)

theorem length_filter_mono {l : List α} {p q : α → Bool}
    (h : ∀ a ∈ l, p a = true → q a = true) :
    (l.filter p).length ≤ (l.filter q).length := by
  rw [← List.countP_eq_length_filter, ← List.countP_eq_length_filter]
  exact List.countP_mono_left h

theorem lookup_mem {l : List (String × ℚ)} {s : String} {q : ℚ}
    (h : l.lookup s = some q) : (s, q) ∈ l := by
  induction l with
  | nil => simp [List.lookup] at h
  | cons a t ih =>
    obtain ⟨k, v⟩ := a
    by_cases hk : s = k
    · subst hk
      simp [List.lookup] at h
      simp [h]
    · have hb : (s == k) = false := beq_false_of_ne hk
      simp [List.lookup, hb] at h
      exact List.mem_cons_of_mem _ (ih h)

theorem sum_map_distrib (D : List κ) (f g : κ → ℚ) :
    (D.map (fun k => f k + g k)).sum = (D.map f).sum + (D.map g).sum := by
  induction D with
  | nil => simp
  | cons d D ih =>
    simp only [List.map_cons, List.sum_cons, ih]
    ring

theorem sum_map_ite_zero [DecidableEq κ] (D : List κ) (k₀ : κ) (c : ℚ)
    (hnot : k₀ ∉ D) :
    (D.map (fun k => if k₀ = k then c else 0)).sum = 0 := by
  induction D with
  | nil => simp
  | cons e E ihe =>
    have he : ¬k₀ = e := fun heq => hnot (heq ▸ List.mem_cons_self e E)
    have hnotE : k₀ ∉ E := fun hE => hnot (List.mem_cons_of_mem e hE)
    simp [he, ihe hnotE]

theorem sum_map_ite_key [DecidableEq κ] (D : List κ) (hD : D.Nodup) (k₀ : κ)
    (hk : k₀ ∈ D) (c : ℚ) :
    (D.map (fun k => if k₀ = k then c else 0)).sum = c := by
  induction D with
  | nil => cases hk
  | cons d D ih =>
    rcases List.mem_cons.mp hk with rfl | hmem
    · have hnot : k₀ ∉ D := (List.nodup_cons.mp hD).1
      simp [sum_map_ite_zero D k₀ c hnot]
    · have hd : ¬k₀ = d := by
        intro he
        exact (List.nodup_cons.mp hD).1 (he ▸ hmem)
      simp [hd, ih (List.nodup_cons.mp hD).2 hmem]

theorem sum_fiberwise [DecidableEq κ] (l : List α) (D : List κ) (key : α → κ)
    (f : α → ℚ) (hD : D.Nodup) (hcov : ∀ x ∈ l, key x ∈ D) :
    (D.map (fun k => ((l.filter (fun x => decide (key x = k))).map f).sum)).sum
      = (l.map f).sum := by
  induction l with
  | nil => simp
  | cons x xs ih =>
    have hx : key x ∈ D := hcov x (List.mem_cons_self x xs)
    have hxs : ∀ y ∈ xs, key y ∈ D := fun y hy => hcov y (List.mem_cons_of_mem x hy)
    have step : (D.map (fun k =>
        (((x :: xs).filter (fun a => decide (key a = k))).map f).sum)) =
        (D.map (fun k => (if key x = k then f x else 0) +
          ((xs.filter (fun a => decide (key a = k))).map f).sum)) := by
      apply List.map_congr_left
      intro k _
      by_cases h : key x = k <;> simp [List.filter_cons, h]
    rw [step, sum_map_distrib, sum_map_ite_key D hD _ hx, ih hxs]
    simp

theorem filterMap_congr_fun (f g : α → Option β) (l : List α)
    (h : ∀ a, f a = g a) : l.filterMap f = l.filterMap g := by
  rw [funext h]

theorem won_length_le_closed (opps : List Opportunity) :
    (opps.filter (fun o => decide (o.status = "Won"))).length ≤
      (opps.filter (fun o => decide (o.status = "Won" ∨ o.status = "Lost"))).length := by
  apply length_filter_mono
  intro a _ h
  simp only [decide_eq_true_eq] at h ⊢
  exact Or.inl h

theorem win_rate_bounds (opps : List Opportunity) :
    0 ≤ win_rate opps ∧ win_rate opps ≤ 1 := by
  simp only [win_rate]
  split_ifs with h
  · norm_num
  · constructor
    · positivity
    · rw [div_le_one (by exact_mod_cast List.length_pos.mpr h)]
      exact_mod_cast won_length_le_closed opps

/-- C1: for every collection with non-negative amounts and every
stage-probability map with values in the unit interval, the base metrics
satisfy `0 ≤ win_rate ≤ 1` and `weighted_forecast ≤ total_pipeline`, where
`total_pipeline` sums the Open amounts and `weighted_forecast` weights each
Open amount by its stage probability (0 for an unmapped stage); the total
of `calculate_forecast` coincides with the weighted forecast. -/
theorem C1_base_metrics_bounds (opps : List Opportunity) (p : List (String × ℚ))
    (hA : ∀ o ∈ opps, 0 ≤ o.amount)
    (hP : ∀ pr ∈ p, 0 ≤ pr.2 ∧ pr.2 ≤ 1) :
    0 ≤ (calculate_metrics opps p).win_rate ∧
    (calculate_metrics opps p).win_rate ≤ 1 ∧
    (calculate_metrics opps p).weighted_forecast ≤
      (calculate_metrics opps p).total_pipeline ∧
    calculate_forecast_total opps p = (calculate_metrics opps p).weighted_forecast := by
  refine ⟨(win_rate_bounds opps).1, (win_rate_bounds opps).2, ?_, rfl⟩
  show weighted_forecast opps p ≤ total_pipeline opps
  unfold weighted_forecast total_pipeline
  apply List.sum_le_sum
  intro o ho
  have hoin : o ∈ opps := (List.mem_filter.mp ho).1
  have h0 : 0 ≤ o.amount := hA o hoin
  cases hlk : p.lookup o.stage with
  | none => simpa using h0
  | some q =>
    have hq := hP _ (lookup_mem hlk)
    calc o.amount * (Option.getD (some q) 0) = o.amount * q := by simp
    _ ≤ o.amount * 1 := mul_le_mul_of_nonneg_left hq.2 h0
    _ = o.amount := mul_one _

/-- Witness for C1 at the specification's worked example. -/
theorem C1_base_metrics_bounds_witness :
    (∀ o ∈ w1opps, 0 ≤ o.amount) ∧ (∀ pr ∈ w1probs, 0 ≤ pr.2 ∧ pr.2 ≤ 1) ∧
    (0 ≤ (calculate_metrics w1opps w1probs).win_rate ∧
     (calculate_metrics w1opps w1probs).win_rate ≤ 1 ∧
     (calculate_metrics w1opps w1probs).weighted_forecast ≤
       (calculate_metrics w1opps w1probs).total_pipeline ∧
     calculate_forecast_total w1opps w1probs =
       (calculate_metrics w1opps w1probs).weighted_forecast) :=
  ⟨by with_unfolding_all decide, by with_unfolding_all decide,
    C1_base_metrics_bounds w1opps w1probs (by with_unfolding_all decide)
      (by with_unfolding_all decide)⟩

/-- C6: the per-rep `open_pipeline` values summed over all owners equal the
`total_pipeline` of the base metrics on the same snapshot. -/
theorem C6_rep_pipeline_partition (opps : List Opportunity)
    (p : List (String × ℚ)) :
    ((rep_owners opps).map
      (fun w => (calculate_rep_performance opps p w).open_pipeline)).sum
      = (calculate_metrics opps p).total_pipeline := by
  have hswap : ∀ w, (calculate_rep_performance opps p w).open_pipeline
      = (((opps.filter (fun o => decide (o.status = "Open"))).filter
          (fun o => decide (o.owner = w))).map (fun o => o.amount)).sum := by
    intro w
    show (((opps.filter (fun o => decide (o.owner = w))).filter
        (fun o => decide (o.status = "Open"))).map (fun o => o.amount)).sum = _
    rw [List.filter_filter, List.filter_filter]
    have hcomm : (fun a : Opportunity =>
        decide (a.status = "Open") && decide (a.owner = w))
        = (fun a : Opportunity =>
        decide (a.owner = w) && decide (a.status = "Open")) := by
      funext a
      exact Bool.and_comm _ _
    rw [hcomm]
  have hfib := sum_fiberwise (opps.filter (fun o => decide (o.status = "Open")))
    ((opps.map (fun o => o.owner)).dedup) (fun o => o.owner) (fun o => o.amount)
    (List.nodup_dedup _)
    (fun x hx => List.mem_dedup.mpr
      (List.mem_map_of_mem _ ((List.mem_filter.mp hx).1)))
  calc ((rep_owners opps).map
        (fun w => (calculate_rep_performance opps p w).open_pipeline)).sum
      = ((rep_owners opps).map (fun w =>
          (((opps.filter (fun o => decide (o.status = "Open"))).filter
            (fun o => decide (o.owner = w))).map (fun o => o.amount)).sum)).sum := by
        exact congrArg List.sum (List.map_congr_left (fun w _ => hswap w))
    _ = ((opps.filter (fun o => decide (o.status = "Open"))).map
          (fun o => o.amount)).sum := hfib
    _ = (calculate_metrics opps p).total_pipeline := rfl

/-- C2 counterexample: on a snapshot with no Won deal, the baseline average
cycle is 0 and an open deal created ten days before the internal clock read
is flagged, so the at-risk result is not empty. -/
theorem C2_no_won_counterexample :
    identify_at_risk_opportunities c2opps (avg_cycle c2opps) c2now ≠ [] := by
  with_unfolding_all decide

/-- C2 amended: with no Won deals the baseline average cycle is 0, and the
at-risk report is empty exactly when no Open opportunity is older than the
internal clock day; an aged Open deal is flagged, not suppressed. -/
theorem C2_no_won_at_risk (opps : List Opportunity) (today : Date)
    (h : ∀ o ∈ opps, ¬o.status = "Won") :
    identify_at_risk_opportunities opps (avg_cycle opps) today = [] ↔
      ∀ o ∈ opps, o.status = "Open" → today.ord - o.created_date.ord ≤ 0 := by
  have hwc : won_cycles opps = [] := by
    unfold won_cycles
    rw [List.map_eq_nil_iff, List.filter_eq_nil_iff]
    intro a ha
    simpa using h a ha
  have hac : avg_cycle opps = 0 := by simp [avg_cycle, hwc]
  unfold identify_at_risk_opportunities
  rw [hac, sortLe_eq_nil_iff, List.filterMap_eq_nil_iff]
  constructor
  · intro hall o ho hopen
    have hx := hall o ho
    by_contra hgt
    push_neg at hgt
    simp [hopen] at hx
    omega
  · intro hall o ho
    by_cases hopen : o.status = "Open"
    · have hle := hall o ho hopen
      simp [hopen]
      omega
    · simp [hopen]

/-- Witness for the amended C2 statement on a Won-free snapshot whose open
deal was created on the reference day. -/
theorem C2_no_won_at_risk_witness :
    (∀ o ∈ w2opps, ¬o.status = "Won") ∧
    (identify_at_risk_opportunities w2opps (avg_cycle w2opps) w2now = [] ↔
      ∀ o ∈ w2opps, o.status = "Open" → w2now.ord - o.created_date.ord ≤ 0) :=
  ⟨by decide, C2_no_won_at_risk w2opps w2now (by decide)⟩

/-- C3 counterexample: one Won deal gives a cycle sample of size one, on
which the quantile computation raises, so the scenario engine produces no
scenarios at all instead of a deterministic interpolation. -/
theorem C3_single_cycle_counterexample : scenario_analysis_of c3opps = none := by
  with_unfolding_all decide

/-- C3 amended: the scenario cycle times are total and deterministic for
Won-cycle samples of any size other than one (interpolated quartiles for
two or more points, the 100-day default for zero points), but a sample of
exactly one Won cycle makes `statistics.quantiles` raise. -/
theorem C3_cycle_sample_sizes (l : List ℚ) :
    (l.length = 1 → scenario_cycles l = none) ∧
    (2 ≤ l.length → (scenario_cycles l).isSome = true) ∧
    scenario_cycles [] = some (100, 100, 100) := by
  refine ⟨?_, ?_, by simp [scenario_cycles]⟩
  · intro h1
    obtain ⟨a, rfl⟩ := List.length_eq_one.mp h1
    simp [scenario_cycles, pyQuantiles4]
  · intro h2
    have hne : l ≠ [] := by
      intro he
      subst he
      simp at h2
    have hq : ¬l.length < 2 := by omega
    simp [scenario_cycles, pyQuantiles4, hne, hq]

/-- Witness for the amended C3 statement on a two-point sample. -/
theorem C3_cycle_sample_sizes_witness :
    2 ≤ ([(20 : ℚ), 40]).length ∧
    (scenario_cycles [(20 : ℚ), 40]).isSome = true :=
  ⟨by decide, (C3_cycle_sample_sizes [(20 : ℚ), 40]).2.1 (by decide)⟩

/-- C4: on three Lost deals closing in three consecutive months every
recent month's win rate is 0, and `calculate_trend_analysis` raises a
`StatisticsError` (the mean of an empty list) instead of returning a
report with zero fallbacks. -/
theorem C4_trend_analysis_raises : calculate_trend_analysis c4opps = none := by
  with_unfolding_all decide

/-- C5 counterexample: with recent cohort win rates 0, one half and one
half, the code reports `stable` while the claimed first-versus-last rule
over the three recent cohorts reports `improving`. -/
theorem C5_cohort_trend_counterexample :
    cohort_trend c5opps = "stable" ∧ spec_cohort_trend c5opps = "improving" := by
  with_unfolding_all decide

/-- C5 amended: the trend keeps only the strictly positive win rates among
the three most recent cohorts and compares the first of those against the
last; when all three recent cohorts have positive win rates this coincides
with the specification's first-versus-last rule, and with fewer than three
cohorts both rules give `stable`. -/
theorem C5_cohort_trend_positive_rates (opps : List Opportunity)
    (h : ∀ k ∈ recent_cohorts opps, 0 < (cohort_of opps k).win_rate) :
    cohort_trend opps = spec_cohort_trend opps := by
  by_cases h3 : 3 ≤ (sorted_cohorts opps).length
  · have hlen : (recent_cohorts opps).length = 3 := by
      unfold recent_cohorts
      rw [List.length_drop]
      omega
    obtain ⟨a, b, c, habc⟩ := List.length_eq_three.mp hlen
    have ha := h a (by rw [habc]; simp)
    have hb := h b (by rw [habc]; simp)
    have hc := h c (by rw [habc]; simp)
    unfold cohort_trend spec_cohort_trend
    rw [if_pos h3, if_pos h3, habc]
    simp [ha, hb, hc]
  · unfold cohort_trend spec_cohort_trend
    rw [if_neg h3, if_neg h3]

/-- Witness for the amended C5 statement on three cohorts with positive
win rates. -/
theorem C5_cohort_trend_positive_rates_witness :
    (∀ k ∈ recent_cohorts w5opps, 0 < (cohort_of w5opps k).win_rate) ∧
    cohort_trend w5opps = spec_cohort_trend w5opps :=
  ⟨by with_unfolding_all decide,
   C5_cohort_trend_positive_rates w5opps (by with_unfolding_all decide)⟩

/-- C7: a Won deal whose `last_stage` cell is blank is keyed under the
empty string rather than under its `stage`: the per-stage historical
statistics have no `Proposal` entry, and the stage-progression counters
drop the deal entirely. -/
theorem C7_blank_last_stage_dropped :
    stage_stats_map [c7opp] "Proposal" = none ∧
    stage_stats_map [c7opp] "" = some ⟨1, 0, 1⟩ ∧
    total_entered [c7opp] "Proposal" = 0 ∧
    total_entered [c7opp] "Discovery" = 0 ∧
    won_from_here [c7opp] "Proposal" = 0 := by
  with_unfolding_all decide

/-- C8: the `total_entered` counters of the stage-progression report are
non-increasing along the fixed stage order. -/
theorem C8_total_entered_monotone (opps : List Opportunity) :
    total_entered opps "Demo" ≤ total_entered opps "Discovery" ∧
    total_entered opps "Proposal" ≤ total_entered opps "Demo" ∧
    total_entered opps "Negotiation" ≤ total_entered opps "Proposal" := by
  have key : ∀ i j : ℕ, i ≤ j →
      entered_at_least opps j ≤ entered_at_least opps i := by
    intro i j hij
    apply length_filter_mono
    intro o _ ho
    cases hr : reached_index o with
    | none =>
      rw [hr] at ho
      exact Bool.noConfusion ho
    | some k =>
      rw [hr] at ho
      simp only [decide_eq_true_eq] at ho ⊢
      omega
  have h0 : total_entered opps "Discovery" = entered_at_least opps 0 := rfl
  have h1 : total_entered opps "Demo" = entered_at_least opps 1 := rfl
  have h2 : total_entered opps "Proposal" = entered_at_least opps 2 := rfl
  have h3 : total_entered opps "Negotiation" = entered_at_least opps 3 := rfl
  rw [h0, h1, h2, h3]
  exact ⟨key 0 1 (by omega), key 1 2 (by omega), key 2 3 (by omega)⟩

/-- C9 counterexample: `identify_at_risk_opportunities` reads the clock
internally, and the same snapshot with the same baseline produces different
reports at two different clock readings. -/
theorem C9_internal_clock_counterexample :
    identify_at_risk_opportunities c9opps 3 ⟨110, 24288⟩ ≠
      identify_at_risk_opportunities c9opps 3 ⟨101, 24288⟩ := by
  with_unfolding_all decide

/-- C9 amended: the cycle-age computations read `datetime.now()` inside the
function bodies rather than taking the reference day as a parameter; with
that internal clock reading made explicit, each computation is a pure
function of snapshot, baseline and reading, and depends on dates only
through day offsets: shifting the reading together with all record dates
leaves the at-risk report and the time-in-stage samples unchanged. -/
theorem C9_clock_translation (opps : List Opportunity) (ac : ℚ) (d : Int)
    (today : Date) :
    identify_at_risk_opportunities (opps.map (shift_dates d)) ac
        ⟨today.ord + d, today.month⟩ =
      identify_at_risk_opportunities opps ac today ∧
    ∀ s, days_in_stage (opps.map (shift_dates d)) s
        ⟨today.ord + d, today.month⟩ = days_in_stage opps s today := by
  constructor
  · simp only [identify_at_risk_opportunities]
    rw [List.filterMap_map]
    apply congrArg
      (sortLe (fun a b : AtRiskEntry => decide (b.days_over ≤ a.days_over)))
    apply filterMap_congr_fun
    intro o
    simp only [Function.comp_apply, shift_dates]
    have harith : today.ord + d - (o.created_date.ord + d) =
        today.ord - o.created_date.ord := by ring
    simp [harith]
  · intro s
    unfold days_in_stage
    rw [List.filterMap_map]
    congr 1
    funext o
    simp only [Function.comp_apply]
    have hreach : reached_index (shift_dates d o) = reached_index o := by
      simp [reached_index, shift_dates, eff_stage]
    have hdc : days_contrib ⟨today.ord + d, today.month⟩ (shift_dates d o)
        = days_contrib today o := by
      unfold days_contrib
      rw [hreach]
      cases hk : reached_index o with
      | none => rfl
      | some k =>
        have helapsed :
            (if (shift_dates d o).status = "Open"
              then (⟨today.ord + d, today.month⟩ : Date).ord -
                (shift_dates d o).created_date.ord
              else (shift_dates d o).close_date.ord -
                (shift_dates d o).created_date.ord)
            = (if o.status = "Open" then today.ord - o.created_date.ord
              else o.close_date.ord - o.created_date.ord) := by
          simp only [shift_dates]
          by_cases ho : o.status = "Open" <;> simp [ho]
        simp only [helapsed]
    rw [hreach, hdc]

theorem default_rates_unit (s : String) :
    0 ≤ default_rates s ∧ default_rates s ≤ 1 := by
  unfold default_rates
  split_ifs <;> norm_num

theorem hist_rate_unit (opps : List Opportunity) (s : String) :
    0 ≤ (historical_rates opps s).getD 0 ∧ (historical_rates opps s).getD 0 ≤ 1 := by
  unfold historical_rates stage_stats_map
  by_cases h : stage_bucket opps s = []
  · simp [h]
  · simp only [h, if_false, Option.map_some', Option.getD_some]
    split_ifs with ht
    · constructor
      · positivity
      · rw [div_le_one (by exact_mod_cast ht)]
        exact_mod_cast List.length_filter_le _ _
    · norm_num

theorem rate_triple_of_unit (r : ℚ) (h0 : 0 ≤ r) (h1 : r ≤ 1) :
    r * (7/10) ≤ r ∧ r ≤ min 1 (r * (13/10)) ∧ min 1 (r * (13/10)) ≤ 1 :=
  ⟨by linarith, le_min h1 (by linarith), min_le_left _ _⟩

theorem stage_rate_triple_ordered (opps : List Opportunity) (s : String) :
    (stage_rate_triple (historical_rates opps) (stage_stats_map opps) s).worst ≤
      (stage_rate_triple (historical_rates opps) (stage_stats_map opps) s).expected ∧
    (stage_rate_triple (historical_rates opps) (stage_stats_map opps) s).expected ≤
      (stage_rate_triple (historical_rates opps) (stage_stats_map opps) s).best ∧
    (stage_rate_triple (historical_rates opps) (stage_stats_map opps) s).best ≤ 1 := by
  have hd := default_rates_unit s
  have hdt := rate_triple_of_unit (default_rates s) hd.1 hd.2
  have hr := hist_rate_unit opps s
  have hrt := rate_triple_of_unit ((historical_rates opps s).getD 0) hr.1 hr.2
  cases hss : stage_stats_map opps s with
  | none =>
    simp only [stage_rate_triple, hss]
    exact ⟨hdt.1, hdt.2.1, hdt.2.2⟩
  | some st =>
    simp only [stage_rate_triple, hss]
    split_ifs with ht
    · exact ⟨hrt.1, hrt.2.1, hrt.2.2⟩
    · exact ⟨hdt.1, hdt.2.1, hdt.2.2⟩

theorem worst_le_expected_rate (opps : List Opportunity) (s : String) :
    worst_rate (historical_rates opps) (stage_stats_map opps) s ≤
      expected_rate (historical_rates opps) (stage_stats_map opps) s := by
  unfold worst_rate expected_rate
  by_cases h : s ∈ stage_order
  · simpa [h] using (stage_rate_triple_ordered opps s).1
  · simp [h]

theorem expected_le_best_rate (opps : List Opportunity) (s : String) :
    expected_rate (historical_rates opps) (stage_stats_map opps) s ≤
      best_rate (historical_rates opps) (stage_stats_map opps) s := by
  unfold expected_rate best_rate
  by_cases h : s ∈ stage_order
  · simpa [h] using (stage_rate_triple_ordered opps s).2.1
  · simp [h]

theorem best_rate_le_one (opps : List Opportunity) (s : String) :
    best_rate (historical_rates opps) (stage_stats_map opps) s ≤ 1 := by
  unfold best_rate
  by_cases h : s ∈ stage_order
  · simpa [h] using (stage_rate_triple_ordered opps s).2.2
  · simp [h]

theorem scenario_forecast_mono (opps : List Opportunity) (r1 r2 : String → ℚ)
    (hA : ∀ o ∈ opps, 0 ≤ o.amount) (hr : ∀ s, r1 s ≤ r2 s) :
    scenario_forecast opps r1 ≤ scenario_forecast opps r2 := by
  unfold scenario_forecast
  apply List.sum_le_sum
  intro o ho
  exact mul_le_mul_of_nonneg_left (hr o.stage)
    (hA o ((List.mem_filter.mp ho).1))

/-- C10: with non-negative amounts, and the rates and statistics wired from
the same snapshot as in `main`, the three scenario rate tables are ordered
stage by stage with the best rate capped at one, and whenever the scenario
engine returns (it raises on a single Won cycle) the three produced
forecasts are ordered worst, expected, best. -/
theorem C10_scenarios_ordered (opps : List Opportunity)
    (hA : ∀ o ∈ opps, 0 ≤ o.amount) :
    (∀ s ∈ stage_order,
      worst_rate (historical_rates opps) (stage_stats_map opps) s ≤
        expected_rate (historical_rates opps) (stage_stats_map opps) s ∧
      expected_rate (historical_rates opps) (stage_stats_map opps) s ≤
        best_rate (historical_rates opps) (stage_stats_map opps) s ∧
      best_rate (historical_rates opps) (stage_stats_map opps) s ≤ 1) ∧
    (∀ t, scenario_analysis_of opps = some t →
      t.2.2.forecast ≤ t.2.1.forecast ∧ t.2.1.forecast ≤ t.1.forecast) := by
  constructor
  · intro s _
    exact ⟨worst_le_expected_rate opps s, expected_le_best_rate opps s,
      best_rate_le_one opps s⟩
  · intro t ht
    unfold scenario_analysis_of calculate_scenario_analysis at ht
    cases hsc : scenario_cycles ((won_cycles opps).map (fun d => (d : ℚ))) with
    | none =>
      rw [hsc] at ht
      exact absurd ht (by simp)
    | some c =>
      obtain ⟨bc, ec, worc⟩ := c
      rw [hsc] at ht
      cases ht
      constructor
      · exact scenario_forecast_mono opps _ _ hA (worst_le_expected_rate opps)
      · exact scenario_forecast_mono opps _ _ hA (expected_le_best_rate opps)

/-- Witness for C10 on a snapshot with an open deal, two Won deals and one
Lost deal. -/
theorem C10_scenarios_ordered_witness :
    (∀ o ∈ w10opps, 0 ≤ o.amount) ∧
    ((∀ s ∈ stage_order,
      worst_rate (historical_rates w10opps) (stage_stats_map w10opps) s ≤
        expected_rate (historical_rates w10opps) (stage_stats_map w10opps) s ∧
      expected_rate (historical_rates w10opps) (stage_stats_map w10opps) s ≤
        best_rate (historical_rates w10opps) (stage_stats_map w10opps) s ∧
      best_rate (historical_rates w10opps) (stage_stats_map w10opps) s ≤ 1) ∧
    (∀ t, scenario_analysis_of w10opps = some t →
      t.2.2.forecast ≤ t.2.1.forecast ∧ t.2.1.forecast ≤ t.1.forecast)) :=
  ⟨by with_unfolding_all decide,
    C10_scenarios_ordered w10opps (by with_unfolding_all decide)⟩
